import Mathlib

/-!
Verification development for the cellarium-cloud API service.

This file gives a shallow embedding, in Lean 4, of the data model and the
operations of the annotation/search orchestration workflow of the repository:
the ORM entities of src/casp/services/db/models.py, the match-persistence
data manager of src/casp/services/api/data_manager/cell_operations.py, the
response schemas, and the service layer (CellOperationsService) that the unit
tests in tests/unit/test_cell_operations_service.py exercise.  The service
module itself is not under src/, so its operations are modelled from the
specification (each such definition carries a doc comment saying so);
everything else is translated directly from the source files.

Modelling conventions: machine floats (distances) are embedded as Int, byte
files as String, timestamps as Int; external collaborators (embedding
service, vector search, metadata warehouse) are total functions supplied in
an environment record; database nondeterminism (uuid, current time) is
passed in as explicit parameters.  SQL aggregate semantics are embedded
faithfully: SUM over an empty row set is NULL (Option.none), COUNT is 0.
-/

namespace Casp

/-- Error taxonomy of the API service layer, as named by the spec and by
the unit tests (casp.services.api.services.exceptions). -/
inductive ServiceError where
  | invalidInputError (msg : String)
  | accessDeniedError (msg : String)
  | vectorSearchResponseError (msg : String)
  | cellMetadataColumnDoesntExist (msg : String)
  | upstreamServiceError (msg : String)
deriving DecidableEq, Repr

/-- ORM entity User, from src/casp/services/db/models.py lines 9-21.
Column defaults of the source are the Lean field defaults: active True,
requests_processed 0, cells_processed 0, is_admin True.  Columns with no
source default (id, email, username) have no Lean default. -/
structure User where
  id : Nat
  email : String
  username : String
  active : Bool := true
  requests_processed : Nat := 0
  cells_processed : Nat := 0
  is_admin : Bool := true
deriving DecidableEq, Repr

/-- ORM entity UserActivity, from src/casp/services/db/models.py lines 24-32.
The id column is database-assigned (autoincrement) and never inspected by the
embedded code, so it defaults to 0 here; finished_time's dynamic default
(now) is applied by the database layer and is left as none. -/
structure UserActivity where
  id : Nat := 0
  user_id : Nat
  cell_count : Nat := 0
  model_name : String
  method : Option String := none
  finished_time : Option Int := none
deriving DecidableEq, Repr

/-- ORM entity CASModel, from src/casp/services/db/models.py lines 35-49.
admin_use_only defaults True and is_default_model defaults False as in the
source.  schema_name and bq_dataset_name default, in the source, to values
of casp.services.settings, which is not under src/; they default to the
empty string here.  created_date's dynamic default (utcnow) is applied at
insert time and is left as none. -/
structure CASModel where
  id : Nat
  model_name : String
  model_file_path : String
  embedding_dimension : Nat
  admin_use_only : Bool := true
  schema_name : String := ""
  bq_dataset_name : String := ""
  is_default_model : Bool := false
  created_date : Option Int := none
deriving DecidableEq, Repr

/-- ORM entity CASMatchingEngineIndex, from src/casp/services/db/models.py
lines 52-67: a deployed vector-search index bound to one CASModel by
model_id; is_grpc selects the transport mode and defaults True. -/
structure CASMatchingEngineIndex where
  id : Nat
  index_name : String
  embedding_dimension : Nat
  endpoint_id : String
  deployed_index_id : String
  num_neighbors : Nat
  model_id : Nat
  is_grpc : Bool := true
  api_endpoint : Option String := none
deriving DecidableEq, Repr

/-- Modelled from the spec: the MatchResult shape of
casp.services.api.clients.matching_client is not under src/ (only its uses
in the tests and the data manager are).  Per the spec's data model, a
neighbor is a (neighbor-identifier, distance, optional raw feature vector)
triple; identifiers are embedded as Nat and distances as Int. -/
structure Neighbor where
  cas_cell_index : Nat
  distance : Int
  feature_vector : Option (List Int) := none
deriving DecidableEq, Repr

/-- Modelled from the spec: one per-query neighbor list of a MatchResult
(MatchResult.NearestNeighbors in the tests). -/
structure NearestNeighbors where
  neighbors : List Neighbor
deriving DecidableEq, Repr

/-- Modelled from the spec: the MatchResult returned by the vector-search
client, an ordered sequence of per-query neighbor lists parallel to the
query batch. -/
structure MatchResult where
  «matches» : List NearestNeighbors
deriving DecidableEq, Repr

/-- Modelled from the spec: the configuration values of
casp.services.settings used by the embedded code (the settings module is
not under src/).  Only the transient-table dataset namespace and its
expiration window, in minutes, are needed. -/
structure Settings where
  API_REQUEST_TEMP_TABLE_DATASET : String
  API_REQUEST_TEMP_TABLE_DATASET_EXPIRATION : Int
deriving DecidableEq, Repr

/-- Modelled from the spec: CellOperationsService.__validate_knn_response is
not under src/ (only its tests are).  Per spec section 4.3 the validator
fails with VectorSearchResponseError when the number of matches differs
from the number of queries, or when some per-query neighbor list is empty,
and succeeds otherwise; the message texts are the ones the unit tests
expect. -/
def validate_knn_response (embeddings : List (List Int)) (knn_response : MatchResult) :
    Except ServiceError Unit :=
  if knn_response.«matches».length ≠ embeddings.length then
    .error (.vectorSearchResponseError
      ("Number of query ids (" ++ toString embeddings.length ++ ") and knn matches (" ++
        toString knn_response.«matches».length ++ ") does not match."))
  else if knn_response.«matches».any (fun m => m.neighbors.isEmpty) then
    .error (.vectorSearchResponseError "Vector Search returned a match with 0 neighbors.")
  else
    .ok ()

/-- Modelled from the spec: CellOperationsService.authorize_model_for_user
is not under src/ (only its tests are).  Per spec section 4.6 it looks the
model up by name (the registry is embedded as a list), fails with
InvalidInputError when no model of that name exists, fails with
AccessDeniedError when the model is admin-restricted and the user is not an
admin, and returns the model otherwise. -/
def authorize_model_for_user (model_registry : List CASModel) (user : User)
    (model_name : String) : Except ServiceError CASModel :=
  match model_registry.find? (fun m => m.model_name = model_name) with
  | none => .error (.invalidInputError (model_name ++ " model does not exist."))
  | some cas_model =>
    if cas_model.admin_use_only && !user.is_admin then
      .error (.accessDeniedError (model_name ++ " model is not available."))
    else
      .ok cas_model

/-- Modelled from the spec: CellOperationsService.__split_embeddings_into_chunks
is not under src/ (only its tests are).  Per spec section 4.7 batching,
the ordered sequence is partitioned into consecutive chunks of the given
size, the last chunk possibly smaller.  A chunk size of zero raises in the
source (an invalid range step) and is outside the spec's contract.  The
recursion is driven by a fuel argument, initialized to the list length,
which suffices because every positive chunk size consumes at least one
element per step; the fuel-exhausted case is unreachable under that
initialization. -/
def split_embeddings_into_chunks (chunk_size : Nat) (embeddings : List α) :
    List (List α) :=
  go embeddings.length embeddings
where
  go : Nat → List α → List (List α)
  | _, [] => []
  | 0, _ :: _ => []
  | fuel + 1, x :: xs =>
    (x :: xs).take chunk_size :: go fuel (xs.drop (chunk_size - 1))

/-- One row of the transient match table, from the dictionaries built in
insert_matches_to_temp_table (cell_operations.py lines 50-60): query_id,
match_cas_cell_index (int of the neighbor identifier) and match_score
(the neighbor distance; floats are embedded as Int). -/
structure MatchRow where
  query_id : String
  match_cas_cell_index : Nat
  match_score : Int
deriving DecidableEq, Repr

/-- The transient BigQuery table created per request, from
insert_matches_to_temp_table (cell_operations.py lines 41-68): its
fully-qualified name, expiration timestamp, loaded rows, and a flag
recording that the synchronous bulk-load job was awaited (job.result())
before the handle was returned. -/
structure TempTable where
  fqn : String
  expires : Int
  rows : List MatchRow
  load_completed : Bool
deriving DecidableEq, Repr

/-- Translated from CellOperationsDataManager.insert_matches_to_temp_table
(src/casp/services/api/data_manager/cell_operations.py lines 29-70).  The
source draws a fresh uuid and reads the current time; both are passed in
here as parameters.  The row list mirrors the source's nested loop, which
pairs query_ids[i] with knn_response.matches[i] positionally (embedded as
zip, which agrees with the source whenever the query-id list is at least as
long as the match list; a shorter one raises IndexError in the source).
Returns the table it created together with the returned fully-qualified
name. -/
def insert_matches_to_temp_table (settings : Settings) (my_uuid : String) (now : Int)
    (query_ids : List String) (knn_response : MatchResult) : TempTable × String :=
  let temp_table_fqn := settings.API_REQUEST_TEMP_TABLE_DATASET ++ ".api_request_matches_" ++ my_uuid
  let expires := now + settings.API_REQUEST_TEMP_TABLE_DATASET_EXPIRATION
  let rows_to_insert :=
    (query_ids.zip knn_response.«matches»).flatMap fun p =>
      p.2.neighbors.map fun neighbor =>
        MatchRow.mk p.1 neighbor.cas_cell_index neighbor.distance
  (TempTable.mk temp_table_fqn expires rows_to_insert true, temp_table_fqn)

/-- SQL SUM aggregate over a column: NULL (none) over an empty row set,
the sum otherwise.  This is the semantics of the scalar subquery used by
the derived User columns in src/casp/services/db/models.py lines 70-84. -/
def sqlSum : List Nat → Option Nat
  | [] => none
  | xs => some xs.sum

/-- Translated from the column_property total_cells_processed of
src/casp/services/db/models.py lines 71-77: the stored cells_processed
column plus the SQL SUM of cell_count over the user's activity rows.  The
addition with a NULL subquery result is NULL, so the total is none for a
user with no activity rows. -/
def total_cells_processed (u : User) (activities : List UserActivity) : Option Nat :=
  (sqlSum ((activities.filter (fun a => a.user_id = u.id)).map (fun a => a.cell_count))).map
    (fun s => u.cells_processed + s)

/-- Translated from the column_property total_requests_processed of
src/casp/services/db/models.py lines 78-84: the stored requests_processed
column plus the SQL COUNT of the user's activity rows (COUNT of an empty
row set is 0, never NULL). -/
def total_requests_processed (u : User) (activities : List UserActivity) : Nat :=
  u.requests_processed + (activities.filter (fun a => a.user_id = u.id)).length

/-- The total the spec's words describe for a user's processed cells: the
stored counter plus the sum (0 on empty) of cell_count over the user's
activity rows.  Stated from the spec for comparison with the translated
total_cells_processed. -/
def spec_total_cells_processed (u : User) (activities : List UserActivity) : Nat :=
  u.cells_processed +
    ((activities.filter (fun a => a.user_id = u.id)).map (fun a => a.cell_count)).sum

/-- Response schema ApplicationInfo, from
src/src/casp/services/api/schemas/cellarium_general.py lines 18-21: besides
application_version and default_feature_schema it declares a field named
super_secret whose default is None (a pydantic field annotated str with
default None, hence optional). -/
structure ApplicationInfo where
  application_version : String
  default_feature_schema : String
  super_secret : Option String := none
deriving DecidableEq, Repr

/-- Pydantic serialization of an ApplicationInfo response: every declared
field is emitted, in declaration order, optional fields as NULL when unset. -/
def ApplicationInfo.serialize (a : ApplicationInfo) : List (String × Option String) :=
  [("application_version", some a.application_version),
   ("default_feature_schema", some a.default_feature_schema),
   ("super_secret", a.super_secret)]

/-- Response schema MatchInfo, from src/casp/services/api/schemas.py lines
6-13 (distance statistics embedded as Int). -/
structure MatchInfo where
  cell_type : String
  cell_count : Nat
  min_distance : Int := 0
  p25_distance : Int := 0
  median_distance : Int := 0
  p75_distance : Int := 0
  max_distance : Int := 0
deriving DecidableEq, Repr

/-- Response schema QueryCell, from src/casp/services/api/schemas.py lines
29-31: one annotated query cell with its per-cell-type match summaries. -/
structure QueryCell where
  query_cell_id : String
  «matches» : List MatchInfo
deriving DecidableEq, Repr

/-- One neighbor entry of a nearest-neighbor-search response: the cas cell
index and the distance, as asserted by the search unit tests. -/
structure SearchNeighbor where
  cas_cell_index : Nat
  distance : Int
deriving DecidableEq, Repr

/-- One entry of a nearest-neighbor-search response (schema
SearchQueryCellResult of the router): the query cell id with its raw
neighbor list. -/
structure SearchQueryCellResult where
  query_cell_id : String
  neighbors : List SearchNeighbor
deriving DecidableEq, Repr

/-- The registry of models and deployed indexes (read-only to the core),
embedded as lists of the ORM entities. -/
structure Registry where
  models : List CASModel
  indexes : List CASMatchingEngineIndex
deriving Repr

/-- Modelled from the spec: the external collaborators of the workflows
(embedding-inference service, vector-search service, metadata warehouse)
and the per-request nondeterminism (uuid, current time), supplied as total
functions and values.  Upstream transport failures are outside the embedded
claims and are not modelled. -/
structure Env where
  embed : String → String → List String × List (List Int)
  vector_search : CASMatchingEngineIndex → List (List Int) → MatchResult
  summarize : CASModel → String → List QueryCell
  summarize_dev_details : CASModel → String → List QueryCell
  uuid : String
  now : Int

/-- The mutable service state a request can touch: the append-only
user-activity log and the transient match tables. -/
structure ServiceState where
  activities : List UserActivity
  temp_tables : List TempTable
deriving Repr

/-- Modelled from the spec: CellariumGeneralDataManager.log_user_activity is
not under src/ (only its call sites in the tests are).  Per spec section
4.6 it appends one usage-activity record; the user's cumulative counters
are the derived columns of src/casp/services/db/models.py, computed from
the stored counters and this append-only log, so the stored columns are not
touched here. -/
def log_user_activity (st : ServiceState) (user_id : Nat) (model_name : String)
    (method : String) (cell_count : Nat) : ServiceState :=
  { st with
    activities :=
      st.activities ++ [{ user_id := user_id, cell_count := cell_count,
                          model_name := model_name, method := some method }] }

/-- Modelled from the spec: the index lookup of CellariumGeneralDataManager
(get_index_for_model) is not under src/.  Per spec section 4.6 it resolves
the deployed index bound to the named model (the binding is by model_id in
src/casp/services/db/models.py). -/
def get_index_for_model (reg : Registry) (model_name : String) :
    Option CASMatchingEngineIndex :=
  match reg.models.find? (fun m => m.model_name = model_name) with
  | none => none
  | some m => reg.indexes.find? (fun i => i.model_id = m.id)

/-- Modelled from the spec: CellOperationsService.annotate_adata_file is not
under src/ (only its tests are).  Per spec section 4.7 Annotate: authorize
the model for the user, resolve the index, embed the file; on an empty
batch return an empty result and skip persistence, aggregation and usage
recording; otherwise search, validate, persist the matches, summarize
(with or without dev details), record usage with cell count equal to the
number of queries, and return the summaries. -/
def annotate_adata_file (env : Env) (reg : Registry) (settings : Settings)
    (st : ServiceState) (user : User) (file : String) (model_name : String)
    (include_dev_metadata : Bool) :
    Except ServiceError (List QueryCell) × ServiceState :=
  match authorize_model_for_user reg.models user model_name with
  | .error e => (.error e, st)
  | .ok cas_model =>
    match get_index_for_model reg model_name with
    | none => (.error (.invalidInputError (model_name ++ " index does not exist.")), st)
    | some index =>
      let qe := env.embed file model_name
      if qe.2.isEmpty then
        (.ok [], st)
      else
        let knn_response := env.vector_search index qe.2
        match validate_knn_response qe.2 knn_response with
        | .error e => (.error e, st)
        | .ok _ =>
          let persisted := insert_matches_to_temp_table settings env.uuid env.now qe.1 knn_response
          let st1 := { st with temp_tables := st.temp_tables ++ [persisted.1] }
          let response :=
            if include_dev_metadata then env.summarize_dev_details cas_model persisted.2
            else env.summarize cas_model persisted.2
          let st2 := log_user_activity st1 user.id model_name "annotate" qe.1.length
          (.ok response, st2)

/-- Modelled from the spec: CellOperationsService.search_adata_file is not
under src/ (only its tests are).  Per spec section 4.7 Search: the same
authorize, resolve-index, embed, search-and-validate steps as Annotate,
then the raw neighbor identifiers and distances are returned per query cell
in input order, with no persistence, no aggregation and no usage
recording. -/
def search_adata_file (env : Env) (reg : Registry) (st : ServiceState)
    (user : User) (file : String) (model_name : String) :
    Except ServiceError (List SearchQueryCellResult) × ServiceState :=
  match authorize_model_for_user reg.models user model_name with
  | .error e => (.error e, st)
  | .ok _ =>
    match get_index_for_model reg model_name with
    | none => (.error (.invalidInputError (model_name ++ " index does not exist.")), st)
    | some index =>
      let qe := env.embed file model_name
      if qe.2.isEmpty then
        (.ok [], st)
      else
        let knn_response := env.vector_search index qe.2
        match validate_knn_response qe.2 knn_response with
        | .error e => (.error e, st)
        | .ok _ =>
          (.ok ((qe.1.zip knn_response.«matches»).map fun p =>
            SearchQueryCellResult.mk p.1
              (p.2.neighbors.map fun n => SearchNeighbor.mk n.cas_cell_index n.distance)), st)

/-- The whitelist of queryable cell metadata columns known to the service,
with the implicit identifier column cas_cell_index.  Modelled from the
spec: the constant lives in the service module, which is not under src/;
the unit tests show cell_type and assay are members and foo is not. -/
def CELL_METADATA_FEATURES : List String :=
  ["cell_type", "assay"]

/-- The metadata query issued by the cells-by-ids workflow, as received by
CellOperationsDataManager.get_cell_metadata_by_ids (cell_operations.py
lines 114-141): the identifier list, the selected feature names and the
model name. -/
structure CellMetadataQuery where
  cell_ids : List String
  metadata_feature_names : List String
  model_name : String
deriving DecidableEq, Repr

/-- Modelled from the spec: CellOperationsService.get_cells_by_ids_for_user
is not under src/ (only its tests are).  Per spec section 4.7
Cells-by-ids: every requested feature name must belong to the whitelist of
queryable columns (plus the implicit identifier column); an unknown name
fails with CellMetadataColumnDoesntExist naming it; otherwise the metadata
query is issued with the caller-specified features plus the identifier
column cas_cell_index. -/
def get_cells_by_ids_for_user (whitelist : List String) (cell_ids : List String)
    (model_name : String) (metadata_feature_names : List String) :
    Except ServiceError CellMetadataQuery :=
  match metadata_feature_names.find?
      (fun n => !(n ∈ whitelist || n = "cas_cell_index")) with
  | some bad =>
    .error (.cellMetadataColumnDoesntExist ("Feature " ++ bad ++ " is not available for querying."))
  | none =>
    .ok (CellMetadataQuery.mk cell_ids (metadata_feature_names ++ ["cas_cell_index"]) model_name)

/-- A concrete public model, as in the unit tests (MODEL). -/
def MODEL : CASModel :=
  { id := 1, model_name := "model_name", model_file_path := "p",
    embedding_dimension := 3, admin_use_only := false }

/-- A concrete admin-restricted model, as in the unit tests (MODEL_ADMIN_ONLY). -/
def MODEL_ADMIN_ONLY : CASModel :=
  { id := 2, model_name := "admin_only_model", model_file_path := "p",
    embedding_dimension := 3, admin_use_only := true }

/-- A concrete admin user, as in the unit tests (USER_ADMIN). -/
def USER_ADMIN : User :=
  { id := 1, email := "a@example.com", username := "admin", is_admin := true }

/-- A concrete non-admin user, as in the unit tests (USER_NON_ADMIN). -/
def USER_NON_ADMIN : User :=
  { id := 2, email := "b@example.com", username := "user", is_admin := false }

/-- A concrete user with no explicit flags: every column default applies,
and the user has processed nothing yet. -/
def USER_FRESH : User :=
  { id := 1, email := "c@example.com", username := "fresh" }

/-- A concrete user carrying nonzero stored counters and no activity rows. -/
def USER_LEGACY : User :=
  { id := 9, email := "d@example.com", username := "legacy",
    cells_processed := 5, requests_processed := 2 }

/-- A concrete activity row of USER_LEGACY. -/
def ACTIVITY_LEGACY : UserActivity :=
  { user_id := 9, cell_count := 3, model_name := "model_name", method := some "annotate" }

/-- A concrete deployed index bound to MODEL, as in the unit tests (INDEX). -/
def INDEX : CASMatchingEngineIndex :=
  { id := 1, index_name := "idx", embedding_dimension := 3,
    endpoint_id := "endpoint_id_grpc", deployed_index_id := "deployed_index_id_grpc",
    num_neighbors := 3, model_id := 1 }

/-- A concrete registry holding the two test models and the test index. -/
def REGISTRY0 : Registry := { models := [ MODEL, MODEL_ADMIN_ONLY], indexes := [INDEX] }

/-- Concrete settings: dataset namespace ds, expiration window 240. -/
def SETTINGS0 : Settings :=
  { API_REQUEST_TEMP_TABLE_DATASET := "ds",
    API_REQUEST_TEMP_TABLE_DATASET_EXPIRATION := 240 }

/-- A concrete match result with two queries and three neighbors in total. -/
def MR0 : MatchResult :=
  MatchResult.mk
    [NearestNeighbors.mk [Neighbor.mk 0 0 none],
     NearestNeighbors.mk [Neighbor.mk 1 5 none, Neighbor.mk 2 7 none]]

/-- The two query ids matching MR0's two per-query neighbor lists. -/
def query_ids_pair : List String := ["a", "b"]

/-- A concrete external environment: one query cell q0 with one neighbor. -/
def ENV0 : Env :=
  { embed := fun _ _ => (["q0"], [[0, 1, 2]]),
    vector_search := fun _ _ => MatchResult.mk [NearestNeighbors.mk [Neighbor.mk 0 0 none]],
    summarize := fun _ _ => [QueryCell.mk "q0" [MatchInfo.mk "erythrocyte" 10 0 0 0 0 0]],
    summarize_dev_details := fun _ _ => [],
    uuid := "abc12345",
    now := 100 }

/-- The empty service state: no activity rows, no transient tables. -/
def STATE0 : ServiceState := { activities := [], temp_tables := [] }

/-- A concrete external environment whose embedding service returns an
empty QueryBatch. -/
def ENV_EMPTY : Env :=
  { embed := fun _ _ => ([], []),
    vector_search := fun _ _ => MatchResult.mk [],
    summarize := fun _ _ => [],
    summarize_dev_details := fun _ _ => [],
    uuid := "u0000000",
    now := 0 }

/-- A service state already holding one activity row of the user with id 1. -/
def STATE1 : ServiceState :=
  { activities := [{ user_id := 1, cell_count := 2, model_name := "model_name",
                     method := some "annotate" }],
    temp_tables := [] }

/-- C1. For every QueryBatch/MatchResult pair, validation fails with
VectorSearchResponseError exactly when the number of match entries differs
from the number of queries or some per-query neighbor list is empty; it
succeeds exactly otherwise, and in particular an empty QueryBatch with an
empty MatchResult validates as a no-op. -/
theorem c1_match_validator_iff (embeddings : List (List Int)) (mr : MatchResult) :
    ((∃ msg, validate_knn_response embeddings mr =
        .error (.vectorSearchResponseError msg)) ↔
      mr.«matches».length ≠ embeddings.length ∨ ∃ m ∈ mr.«matches», m.neighbors = [])
    ∧ (validate_knn_response embeddings mr = .ok () ↔
      mr.«matches».length = embeddings.length ∧ ∀ m ∈ mr.«matches», m.neighbors ≠ [])
    ∧ validate_knn_response [] (MatchResult.mk []) = .ok () := by
  have hany : (mr.«matches».any fun m => m.neighbors.isEmpty) = true ↔
      ∃ m ∈ mr.«matches», m.neighbors = [] := by
    simp [List.any_eq_true, List.isEmpty_iff]
  refine ⟨?_, ?_, rfl⟩
  · by_cases hlen : mr.«matches».length = embeddings.length
    · by_cases he : ∃ m ∈ mr.«matches», m.neighbors = []
      · have ha : (mr.«matches».any fun m => m.neighbors.isEmpty) = true := hany.mpr he
        simp [validate_knn_response, hlen, ha, he]
      · have ha : (mr.«matches».any fun m => m.neighbors.isEmpty) = false := by
          rcases h : mr.«matches».any fun m => m.neighbors.isEmpty
          · rfl
          · exact absurd (hany.mp h) he
        simp [validate_knn_response, hlen, ha, he]
    · simp [validate_knn_response, hlen]
  · by_cases hlen : mr.«matches».length = embeddings.length
    · by_cases he : ∃ m ∈ mr.«matches», m.neighbors = []
      · have ha : (mr.«matches».any fun m => m.neighbors.isEmpty) = true := hany.mpr he
        obtain ⟨m, hm, hmn⟩ := he
        simp only [validate_knn_response, hlen, ha]
        simp only [ne_eq, not_true_eq_false, if_false, if_true, reduceCtorEq, false_iff,
          not_and, not_forall]
        exact fun _ => ⟨m, hm, not_not_intro hmn⟩
      · have ha : (mr.«matches».any fun m => m.neighbors.isEmpty) = false := by
          rcases h : mr.«matches».any fun m => m.neighbors.isEmpty
          · rfl
          · exact absurd (hany.mp h) he
        push_neg at he
        simp only [validate_knn_response, hlen, ha]
        simp only [ne_eq, not_true_eq_false, if_false, Bool.false_eq_true, true_and, true_iff]
        exact he
    · simp only [validate_knn_response, hlen, ne_eq, not_false_eq_true, if_true,
        reduceCtorEq, false_iff, not_and]
      intro h
      exact h.elim

/-- C2. authorize_model_for_user yields InvalidInputError exactly when no
model of the given name exists (and never AccessDeniedError then), yields
AccessDeniedError with the expected message exactly when the model exists,
is admin-restricted and the user is not an admin, and returns the model
otherwise; in particular an admin user may authorize any existing model. -/
theorem c2_authorize_model_for_user_spec (reg : List CASModel) (user : User)
    (model_name : String) :
    (reg.find? (fun m => m.model_name = model_name) = none →
      authorize_model_for_user reg user model_name =
        .error (.invalidInputError (model_name ++ " model does not exist.")))
    ∧ (∀ msg, authorize_model_for_user reg user model_name =
        .error (.invalidInputError msg) →
        reg.find? (fun m => m.model_name = model_name) = none)
    ∧ (∀ m, reg.find? (fun m => m.model_name = model_name) = some m →
        (m.admin_use_only = true → user.is_admin = false →
          authorize_model_for_user reg user model_name =
            .error (.accessDeniedError (model_name ++ " model is not available.")))
        ∧ (user.is_admin = true →
          authorize_model_for_user reg user model_name = .ok m)
        ∧ (m.admin_use_only = false →
          authorize_model_for_user reg user model_name = .ok m))
    ∧ (∀ msg, authorize_model_for_user reg user model_name =
        .error (.accessDeniedError msg) →
        (∃ m, reg.find? (fun m => m.model_name = model_name) = some m ∧
          m.admin_use_only = true ∧ user.is_admin = false) ∧
        msg = model_name ++ " model is not available.") := by
  refine ⟨?_, ?_, ?_, ?_⟩
  · intro h
    simp [authorize_model_for_user, h]
  · intro msg h
    rcases hf : reg.find? (fun m => m.model_name = model_name) with _ | m
    · exact hf
    · simp only [authorize_model_for_user, hf] at h
      by_cases hc : (m.admin_use_only && !user.is_admin) = true <;> simp [hc] at h
  · intro m hm
    refine ⟨?_, ?_, ?_⟩
    · intro hao hu
      simp [authorize_model_for_user, hm, hao, hu]
    · intro hu
      simp [authorize_model_for_user, hm, hu]
    · intro hao
      simp [authorize_model_for_user, hm, hao]
  · intro msg h
    rcases hf : reg.find? (fun m => m.model_name = model_name) with _ | m
    · simp only [authorize_model_for_user, hf] at h
      simp at h
    · simp only [authorize_model_for_user, hf] at h
      by_cases hc : (m.admin_use_only && !user.is_admin) = true
      · rw [if_pos hc] at h
        rcases Bool.and_eq_true_iff.mp hc with ⟨h1, h2⟩
        injection h with h
        injection h with h
        exact ⟨⟨m, hf, h1, by simpa using h2⟩, h.symm⟩
      · rw [if_neg hc] at h
        exact absurd h (by simp)

/-- C2 witness: on the test registry, the non-admin user is denied the
admin-only model with the expected message, the admin user is granted it,
and an unknown name yields InvalidInputError. -/
theorem c2_authorize_model_for_user_witness :
    authorize_model_for_user [ MODEL, MODEL_ADMIN_ONLY] USER_NON_ADMIN "admin_only_model" =
      .error (.accessDeniedError "admin_only_model model is not available.")
    ∧ authorize_model_for_user [ MODEL, MODEL_ADMIN_ONLY] USER_ADMIN "admin_only_model" =
      .ok MODEL_ADMIN_ONLY
    ∧ authorize_model_for_user [ MODEL, MODEL_ADMIN_ONLY] USER_NON_ADMIN "non_existent_model" =
      .error (.invalidInputError ("non_existent_model" ++ " model does not exist.")) := by
  refine ⟨?_, ?_, ?_⟩
  · exact ((c2_authorize_model_for_user_spec [ MODEL, MODEL_ADMIN_ONLY] USER_NON_ADMIN
      "admin_only_model").2.2.1 MODEL_ADMIN_ONLY rfl).1 rfl rfl
  · exact ((c2_authorize_model_for_user_spec [ MODEL, MODEL_ADMIN_ONLY] USER_ADMIN
      "admin_only_model").2.2.1 MODEL_ADMIN_ONLY rfl).2.1 rfl
  · exact (c2_authorize_model_for_user_spec [ MODEL, MODEL_ADMIN_ONLY] USER_NON_ADMIN
      "non_existent_model").1 rfl

/-- C8. A User built without an explicit admin flag has is_admin True, a
CASModel built without an explicit restriction flag has admin_use_only
True, and consequently such a default user is granted access to such an
admin-restricted model by authorize_model_for_user. -/
theorem c8_default_flags_admit_default_user :
    ({ id := 7, email := "e@x", username := "u" } : User).is_admin = true
    ∧ ({ id := 3, model_name := "m", model_file_path := "p",
         embedding_dimension := 2 } : CASModel).admin_use_only = true
    ∧ authorize_model_for_user
        [{ id := 3, model_name := "m", model_file_path := "p", embedding_dimension := 2 }]
        { id := 7, email := "e@x", username := "u" } "m" =
      .ok { id := 3, model_name := "m", model_file_path := "p", embedding_dimension := 2 } :=
  ⟨rfl, rfl, rfl⟩

/-- C10. The ApplicationInfo response schema declares, besides
application_version and default_feature_schema, a field super_secret that
defaults to None, and every serialized ApplicationInfo carries the
super_secret key. -/
theorem c10_application_info_super_secret (v d : String) (a : ApplicationInfo) :
    ({ application_version := v, default_feature_schema := d } : ApplicationInfo).super_secret
      = none
    ∧ ("super_secret", a.super_secret) ∈ a.serialize
    ∧ a.serialize.map Prod.fst =
      ["application_version", "default_feature_schema", "super_secret"] := by
  refine ⟨rfl, ?_, rfl⟩
  simp [ApplicationInfo.serialize]

/-- Appending an activity row of a user keeps exactly that row in the
user's filtered activity list. -/
theorem filter_user_append (u : User) (acts : List UserActivity) (rec : UserActivity)
    (h : rec.user_id = u.id) :
    (acts ++ [rec]).filter (fun a => a.user_id = u.id) =
      acts.filter (fun a => a.user_id = u.id) ++ [rec] := by
  rw [List.filter_append]
  simp [List.filter, h]

/-- The SQL SUM aggregate is NULL exactly over an empty row set. -/
theorem sqlSum_eq_none_iff (xs : List Nat) : sqlSum xs = none ↔ xs = [] := by
  cases xs <;> simp [sqlSum]

/-- Appending one value to a summed column always yields a non-NULL SUM,
namely the plain sum of all values. -/
theorem sqlSum_append_singleton (xs : List Nat) (n : Nat) :
    sqlSum (xs ++ [n]) = some (xs.sum + n) := by
  cases xs with
  | nil => simp [sqlSum]
  | cons y ys =>
    simp [sqlSum, List.sum_append]
    omega

/-- Appending an activity row for a user increments the derived
total_requests_processed by exactly one. -/
theorem total_requests_processed_append (u : User) (acts : List UserActivity)
    (rec : UserActivity) (h : rec.user_id = u.id) :
    total_requests_processed u (acts ++ [rec]) = total_requests_processed u acts + 1 := by
  unfold total_requests_processed
  rw [filter_user_append u acts rec h]
  simp only [List.length_append, List.length_cons, List.length_nil]
  omega

/-- Appending an activity row for a user makes the derived
total_cells_processed the previous total (or the bare stored counter when
the previous total was NULL) plus the new row's cell count. -/
theorem total_cells_processed_append (u : User) (acts : List UserActivity)
    (rec : UserActivity) (h : rec.user_id = u.id) :
    total_cells_processed u (acts ++ [rec]) =
      some ((total_cells_processed u acts).getD u.cells_processed + rec.cell_count) := by
  unfold total_cells_processed
  rw [filter_user_append u acts rec h]
  simp only [List.map_append, List.map_cons, List.map_nil]
  rw [sqlSum_append_singleton]
  cases hxs : (acts.filter (fun a => a.user_id = u.id)).map (fun a => a.cell_count) with
  | nil => simp [sqlSum]
  | cons y ys =>
    simp [sqlSum]
    omega

/-- C9 amended. For every User, total_requests_processed is the stored
requests_processed plus the count of the user's activity rows and grows by
one per appended row; total_cells_processed is the stored cells_processed
plus the sum of cell_count over the user's activity rows whenever at least
one such row exists, but is SQL NULL for a user with no activity rows
(SUM over an empty set is NULL); appending a row with cell count n raises
a non-NULL cells total by exactly n, with the stored columns untouched. -/
theorem c9_derived_totals_amended (u : User) (acts : List UserActivity)
    (rec : UserActivity) (h : rec.user_id = u.id) :
    total_requests_processed u acts =
      u.requests_processed + (acts.filter (fun a => a.user_id = u.id)).length
    ∧ total_requests_processed u (acts ++ [rec]) = total_requests_processed u acts + 1
    ∧ (∀ c, total_cells_processed u acts = some c →
        total_cells_processed u (acts ++ [rec]) = some (c + rec.cell_count))
    ∧ (total_cells_processed u acts = none ↔
        acts.filter (fun a => a.user_id = u.id) = [])
    ∧ (acts.filter (fun a => a.user_id = u.id) ≠ [] →
        total_cells_processed u acts = some (spec_total_cells_processed u acts)) := by
  refine ⟨rfl, total_requests_processed_append u acts rec h, ?_, ?_, ?_⟩
  · intro c hc
    rw [total_cells_processed_append u acts rec h, hc]
    rfl
  · unfold total_cells_processed
    rw [Option.map_eq_none', sqlSum_eq_none_iff, List.map_eq_nil_iff]
  · intro hne
    unfold total_cells_processed spec_total_cells_processed
    cases hxs : (acts.filter (fun a => a.user_id = u.id)).map (fun a => a.cell_count) with
    | nil => exact absurd (List.map_eq_nil_iff.mp hxs) hne
    | cons y ys => simp [sqlSum]

/-- C9 witness: for the legacy user with one activity row of cell count 3,
the totals evaluate and appending a second row of cell count 4 raises the
cells total from 8 to 12 and the requests total by one. -/
theorem c9_derived_totals_witness :
    total_cells_processed USER_LEGACY [ACTIVITY_LEGACY] = some 8
    ∧ total_cells_processed USER_LEGACY
        ([ACTIVITY_LEGACY] ++
          [{ user_id := 9, cell_count := 4, model_name := "m" }]) = some 12
    ∧ total_requests_processed USER_LEGACY
        ([ACTIVITY_LEGACY] ++
          [{ user_id := 9, cell_count := 4, model_name := "m" }]) =
      total_requests_processed USER_LEGACY [ACTIVITY_LEGACY] + 1 := by
  have h := c9_derived_totals_amended USER_LEGACY [ACTIVITY_LEGACY]
    { user_id := 9, cell_count := 4, model_name := "m" } rfl
  exact ⟨rfl, (h.2.2.1 8 rfl).trans (by decide), h.2.1⟩

/-- C9 counterexample: for a user with stored counters but no activity
rows, the code's derived cells total is SQL NULL, not the stored counter
plus the (empty, hence zero) sum the claim describes. -/
theorem c9_counterexample_empty_log :
    total_cells_processed USER_LEGACY [] = none
    ∧ spec_total_cells_processed USER_LEGACY [] = 5
    ∧ total_cells_processed USER_LEGACY [] ≠
        some (spec_total_cells_processed USER_LEGACY []) := by
  refine ⟨rfl, rfl, ?_⟩
  decide

/-- C5. In the cells-by-ids workflow, if every requested feature name is in
the whitelist (or is the identifier column itself) the metadata query is
issued with exactly the requested names plus the implicit identifier column
cas_cell_index; if some requested name is unknown, the workflow fails with
CellMetadataColumnDoesntExist naming an offending column. -/
theorem c5_get_cells_by_ids_spec (whitelist cell_ids : List String)
    (model_name : String) (names : List String) :
    ((∀ n ∈ names, n ∈ whitelist ∨ n = "cas_cell_index") →
      get_cells_by_ids_for_user whitelist cell_ids model_name names =
        .ok (CellMetadataQuery.mk cell_ids (names ++ ["cas_cell_index"]) model_name))
    ∧ ((∃ n ∈ names, n ∉ whitelist ∧ n ≠ "cas_cell_index") →
      ∃ bad ∈ names, bad ∉ whitelist ∧ bad ≠ "cas_cell_index" ∧
        get_cells_by_ids_for_user whitelist cell_ids model_name names =
          .error (.cellMetadataColumnDoesntExist
            ("Feature " ++ bad ++ " is not available for querying."))) := by
  constructor
  · intro hall
    have hnone : names.find?
        (fun n => !(n ∈ whitelist || n = "cas_cell_index")) = none := by
      rw [List.find?_eq_none]
      intro x hx
      rcases hall x hx with hw | hi
      · simp [hw]
      · simp [hi]
    unfold get_cells_by_ids_for_user
    rw [hnone]
  · rintro ⟨n, hn, hnw, hni⟩
    have hsome : (names.find?
        (fun n => !(n ∈ whitelist || n = "cas_cell_index"))).isSome := by
      rw [List.find?_isSome]
      exact ⟨n, hn, by simp [hnw, hni]⟩
    obtain ⟨bad, hbad⟩ := Option.isSome_iff_exists.mp hsome
    have hmem := List.mem_of_find?_eq_some hbad
    have hprop := List.find?_some hbad
    simp only [Bool.not_eq_true', Bool.or_eq_false_iff, decide_eq_false_iff_not] at hprop
    exact ⟨bad, hmem, hprop.1, hprop.2,
      by unfold get_cells_by_ids_for_user; rw [hbad]⟩

/-- C5 witness: requesting cell_type and assay issues the query with those
features plus cas_cell_index; requesting foo fails with the expected
message, as in the unit tests. -/
theorem c5_get_cells_by_ids_witness :
    get_cells_by_ids_for_user CELL_METADATA_FEATURES ["cell1", "cell2", "cell3"]
        "model_name" ["cell_type", "assay"] =
      .ok (CellMetadataQuery.mk ["cell1", "cell2", "cell3"]
        ["cell_type", "assay", "cas_cell_index"] "model_name")
    ∧ ∃ bad ∈ (["cell_type", "foo"] : List String), bad ∉ CELL_METADATA_FEATURES ∧
        bad ≠ "cas_cell_index" ∧
        get_cells_by_ids_for_user CELL_METADATA_FEATURES ["cell1", "cell2", "cell3"]
            "model_name" ["cell_type", "foo"] =
          .error (.cellMetadataColumnDoesntExist
            ("Feature " ++ bad ++ " is not available for querying.")) := by
  constructor
  · exact (c5_get_cells_by_ids_spec CELL_METADATA_FEATURES ["cell1", "cell2", "cell3"]
      "model_name" ["cell_type", "assay"]).1 (by decide)
  · exact (c5_get_cells_by_ids_spec CELL_METADATA_FEATURES ["cell1", "cell2", "cell3"]
      "model_name" ["cell_type", "foo"]).2 (by decide)

/-- C4. For every query-id list and match result of equal length, match
persistence creates the transient table named
dataset.api_request_matches_uuid, sets its expiration to the configured
offset from creation time, loads one row per neighbor of every query (the
row count is the sum of the neighbor-list lengths, and the rows are exactly
the flattened query-id/neighbor-index/distance triples), completes the bulk
load, and returns the fully-qualified table name. -/
theorem c4_insert_matches_to_temp_table_spec (settings : Settings) (my_uuid : String)
    (now : Int) (query_ids : List String) (knn : MatchResult)
    (h : query_ids.length = knn.«matches».length) :
    ∀ tbl fqn, insert_matches_to_temp_table settings my_uuid now query_ids knn = (tbl, fqn) →
      fqn = settings.API_REQUEST_TEMP_TABLE_DATASET ++ ".api_request_matches_" ++ my_uuid
      ∧ tbl.fqn = fqn
      ∧ tbl.expires = now + settings.API_REQUEST_TEMP_TABLE_DATASET_EXPIRATION
      ∧ tbl.load_completed = true
      ∧ tbl.rows.length = (knn.«matches».map (fun m => m.neighbors.length)).sum
      ∧ ∀ r, r ∈ tbl.rows ↔ ∃ p ∈ query_ids.zip knn.«matches», ∃ n ∈ p.2.neighbors,
          r = MatchRow.mk p.1 n.cas_cell_index n.distance := by
  intro tbl fqn heq
  have h1 := congrArg Prod.fst heq
  have h2 := congrArg Prod.snd heq
  simp only [insert_matches_to_temp_table] at h1 h2
  subst h1
  subst h2
  refine ⟨rfl, rfl, rfl, rfl, ?_, ?_⟩
  · rw [List.length_flatMap]
    have hmap : List.map
        (List.length ∘ fun p : String × NearestNeighbors =>
          p.2.neighbors.map fun neighbor =>
            MatchRow.mk p.1 neighbor.cas_cell_index neighbor.distance)
        (query_ids.zip knn.«matches») =
        List.map ((fun m : NearestNeighbors => m.neighbors.length) ∘ Prod.snd)
          (query_ids.zip knn.«matches») := by
      apply List.map_congr_left
      intro p _
      simp [Function.comp]
    rw [hmap, ← List.map_map]
    rw [List.map_snd_zip query_ids knn.«matches» (le_of_eq h.symm)]
  · intro r
    simp only [List.mem_flatMap, List.mem_map]
    constructor
    · rintro ⟨p, hp, n, hn, rfl⟩
      exact ⟨p, hp, n, hn, rfl⟩
    · rintro ⟨p, hp, n, hn, rfl⟩
      exact ⟨p, hp, n, hn, rfl⟩

/-- C4 witness: for two query ids paired with one and two neighbors, the
persisted table holds three rows, expires 240 after creation time 100, and
the returned handle is ds.api_request_matches_abc12345. -/
theorem c4_insert_matches_witness :
    query_ids_pair.length = MR0.«matches».length
    ∧ (insert_matches_to_temp_table SETTINGS0 "abc12345" 100 query_ids_pair MR0).2 =
      "ds.api_request_matches_abc12345"
    ∧ (insert_matches_to_temp_table SETTINGS0 "abc12345" 100 query_ids_pair MR0).1.rows.length = 3
    ∧ (insert_matches_to_temp_table SETTINGS0 "abc12345" 100 query_ids_pair MR0).1.expires = 340
    ∧ (insert_matches_to_temp_table SETTINGS0 "abc12345" 100 query_ids_pair MR0).1.load_completed
      = true := by
  have h := c4_insert_matches_to_temp_table_spec SETTINGS0 "abc12345" 100 query_ids_pair MR0
    (by decide)
    (insert_matches_to_temp_table SETTINGS0 "abc12345" 100 query_ids_pair MR0).1
    (insert_matches_to_temp_table SETTINGS0 "abc12345" 100 query_ids_pair MR0).2
    rfl
  refine ⟨by decide, h.1.trans (by decide), h.2.2.2.2.1.trans (by decide),
    h.2.2.1.trans (by decide), h.2.2.2.1⟩

/-- The chunking recursion yields no chunks on an empty list, whatever the
fuel. -/
theorem split_go_nil {α : Type} (chunk_size fuel : Nat) :
    split_embeddings_into_chunks.go (α := α) chunk_size fuel [] = [] := by
  cases fuel <;> rfl

/-- The chunking recursion on a nonempty list with positive fuel takes one
chunk and recurses on the remainder. -/
theorem split_go_cons {α : Type} (chunk_size fuel : Nat) (x : α) (xs : List α) :
    split_embeddings_into_chunks.go chunk_size (fuel + 1) (x :: xs) =
      (x :: xs).take chunk_size ::
        split_embeddings_into_chunks.go chunk_size fuel (xs.drop (chunk_size - 1)) := rfl

/-- The remainder after one chunking step is the drop of the chunk size. -/
theorem split_go_drop_eq {α : Type} (chunk_size : Nat) (hs : 0 < chunk_size)
    (x : α) (xs : List α) :
    xs.drop (chunk_size - 1) = (x :: xs).drop chunk_size := by
  cases chunk_size with
  | zero => exact absurd hs (by simp)
  | succ s => simp [List.drop_succ_cons]

/-- With enough fuel, the chunking recursion returns no chunks only on the
empty list. -/
theorem split_go_eq_nil_iff {α : Type} (chunk_size fuel : Nat) (l : List α)
    (hl : l.length ≤ fuel) :
    split_embeddings_into_chunks.go chunk_size fuel l = [] ↔ l = [] := by
  cases fuel with
  | zero =>
    have : l = [] := List.length_eq_zero.mp (Nat.le_zero.mp hl)
    subst this
    simp [split_go_nil]
  | succ fuel =>
    cases l with
    | nil => simp [split_go_nil]
    | cons x xs => simp [split_go_cons]

/-- With enough fuel and a positive chunk size, the concatenation of the
chunks is the original list. -/
theorem split_go_flatten {α : Type} (chunk_size : Nat) (hs : 0 < chunk_size) :
    ∀ (fuel : Nat) (l : List α), l.length ≤ fuel →
      (split_embeddings_into_chunks.go chunk_size fuel l).flatten = l := by
  intro fuel
  induction fuel with
  | zero =>
    intro l hl
    have : l = [] := List.length_eq_zero.mp (Nat.le_zero.mp hl)
    subst this
    simp [split_go_nil]
  | succ fuel ih =>
    intro l hl
    cases l with
    | nil => simp [split_go_nil]
    | cons x xs =>
      rw [split_go_cons, List.flatten_cons,
        ih (xs.drop (chunk_size - 1)) (by simp only [List.length_drop]; simp only [List.length_cons] at hl; omega),
        split_go_drop_eq chunk_size hs x xs, List.take_append_drop]

/-- With enough fuel and a positive chunk size, the number of chunks is the
ceiling of the list length divided by the chunk size. -/
theorem split_go_length {α : Type} (chunk_size : Nat) (hs : 0 < chunk_size) :
    ∀ (fuel : Nat) (l : List α), l.length ≤ fuel →
      (split_embeddings_into_chunks.go chunk_size fuel l).length =
        (l.length + chunk_size - 1) / chunk_size := by
  intro fuel
  induction fuel with
  | zero =>
    intro l hl
    have : l = [] := List.length_eq_zero.mp (Nat.le_zero.mp hl)
    subst this
    simp only [split_go_nil, List.length_nil, Nat.zero_add]
    exact (Nat.div_eq_of_lt (by omega)).symm
  | succ fuel ih =>
    intro l hl
    cases l with
    | nil =>
      simp only [split_go_nil, List.length_nil, Nat.zero_add]
      exact (Nat.div_eq_of_lt (by omega)).symm
    | cons x xs =>
      rw [split_go_cons, List.length_cons,
        ih (xs.drop (chunk_size - 1)) (by simp only [List.length_drop]; simp only [List.length_cons] at hl; omega)]
      simp only [List.length_drop, List.length_cons]
      have hnum : xs.length + 1 + chunk_size - 1 = xs.length + chunk_size := by omega
      rw [hnum, Nat.add_div_right xs.length hs]
      rcases le_or_lt (chunk_size - 1) xs.length with hge | hlt
      · have : xs.length - (chunk_size - 1) + chunk_size - 1 = xs.length := by omega
        rw [this]
      · have h1 : xs.length - (chunk_size - 1) + chunk_size - 1 = chunk_size - 1 := by omega
        rw [h1, Nat.div_eq_of_lt (by omega), Nat.div_eq_of_lt (by omega)]

/-- With enough fuel and a positive chunk size, every chunk except possibly
the last has exactly the chunk size. -/
theorem split_go_dropLast {α : Type} (chunk_size : Nat) (hs : 0 < chunk_size) :
    ∀ (fuel : Nat) (l : List α),
      l.length ≤ fuel →
      ∀ c ∈ (split_embeddings_into_chunks.go chunk_size fuel l).dropLast,
        c.length = chunk_size := by
  intro fuel
  induction fuel with
  | zero =>
    intro l hl c hc
    have : l = [] := List.length_eq_zero.mp (Nat.le_zero.mp hl)
    subst this
    simp [split_go_nil] at hc
  | succ fuel ih =>
    intro l hl c hc
    cases l with
    | nil => simp [split_go_nil] at hc
    | cons x xs =>
      rw [split_go_cons] at hc
      rcases hrest : split_embeddings_into_chunks.go chunk_size fuel
          (xs.drop (chunk_size - 1)) with _ | ⟨r, rs⟩
      · rw [hrest] at hc
        simp at hc
      · rw [hrest, List.dropLast_cons_of_ne_nil (by simp)] at hc
        have hfu : (xs.drop (chunk_size - 1)).length ≤ fuel := by
          simp only [List.length_drop]
          simp only [List.length_cons] at hl
          omega
        rcases List.mem_cons.mp hc with hceq | hcmem
        · have hne : xs.drop (chunk_size - 1) ≠ [] := by
            intro hnil
            rw [hnil, split_go_nil] at hrest
            exact List.noConfusion hrest
          have hlen2 : chunk_size ≤ xs.length + 1 := by
            by_contra hcon
            exact hne (List.drop_eq_nil_of_le (by omega))
          subst hceq
          simp only [List.length_take, List.length_cons]
          omega
        · exact ih (xs.drop (chunk_size - 1)) hfu c (by rw [hrest]; exact hcmem)

/-- C6. For every positive chunk size, chunk-splitting yields
ceil(N divided by size) chunks (computed as (N + size - 1) / size), their
concatenation in order is the original sequence, and every chunk except
possibly the last has exactly the chunk size. -/
theorem c6_split_embeddings_into_chunks_spec {α : Type} (chunk_size : Nat)
    (hs : 0 < chunk_size) (embeddings : List α) :
    (split_embeddings_into_chunks chunk_size embeddings).length =
      (embeddings.length + chunk_size - 1) / chunk_size
    ∧ (split_embeddings_into_chunks chunk_size embeddings).flatten = embeddings
    ∧ ∀ c ∈ (split_embeddings_into_chunks chunk_size embeddings).dropLast,
        c.length = chunk_size :=
  ⟨split_go_length chunk_size hs embeddings.length embeddings le_rfl,
   split_go_flatten chunk_size hs embeddings.length embeddings le_rfl,
   split_go_dropLast chunk_size hs embeddings.length embeddings le_rfl⟩

/-- C6 witness: 100 items at chunk size 10 yield 10 chunks, at chunk size 9
they yield 12 chunks whose concatenation is the original sequence, with
every chunk but the last of size 9 (the last, by the count and the
concatenation, holding the single remaining item). -/
theorem c6_split_embeddings_witness :
    (split_embeddings_into_chunks 10 (List.range 100)).length = 10
    ∧ (split_embeddings_into_chunks 9 (List.range 100)).length = 12
    ∧ (split_embeddings_into_chunks 9 (List.range 100)).flatten = List.range 100
    ∧ ∀ c ∈ (split_embeddings_into_chunks 9 (List.range 100)).dropLast, c.length = 9 := by
  have h10 := c6_split_embeddings_into_chunks_spec 10 (by decide) (List.range 100)
  have h9 := c6_split_embeddings_into_chunks_spec 9 (by decide) (List.range 100)
  exact ⟨h10.1.trans (by decide), h9.1.trans (by decide), h9.2.1, h9.2.2⟩

/-- C3 amended.  In the annotate workflow, an empty QueryBatch leaves the
whole service state unchanged (no usage-activity record, counters
untouched); a non-empty QueryBatch that completes successfully appends
exactly one usage-activity record tagged annotate whose cell count is the
number of queries, raises the derived requests total by one, and raises
the derived cells total by the number of queries whenever that total was
non-NULL beforehand (for a user with no prior activity rows it is SQL NULL
beforehand, because SUM over an empty set is NULL, and becomes the stored
counter plus the number of queries). -/
theorem c3_annotate_usage_recording_amended (env : Env) (reg : Registry)
    (settings : Settings) (st : ServiceState) (user : User) (file : String)
    (model_name : String) (include_dev_metadata : Bool) :
    ((env.embed file model_name).2 = [] →
      (annotate_adata_file env reg settings st user file model_name include_dev_metadata).2
        = st)
    ∧ (∀ resp, (env.embed file model_name).2 ≠ [] →
        (annotate_adata_file env reg settings st user file model_name
          include_dev_metadata).1 = .ok resp →
        (annotate_adata_file env reg settings st user file model_name
            include_dev_metadata).2.activities =
          st.activities ++
            [{ user_id := user.id, cell_count := (env.embed file model_name).1.length,
               model_name := model_name, method := some "annotate" }]
        ∧ total_requests_processed user
            (annotate_adata_file env reg settings st user file model_name
              include_dev_metadata).2.activities =
          total_requests_processed user st.activities + 1
        ∧ ∀ c, total_cells_processed user st.activities = some c →
            total_cells_processed user
              (annotate_adata_file env reg settings st user file model_name
                include_dev_metadata).2.activities =
            some (c + (env.embed file model_name).1.length)) := by
  rcases hauth : authorize_model_for_user reg.models user model_name with e0 | m0
  · constructor
    · intro hemp
      simp [annotate_adata_file, hauth]
    · intro resp hne hok
      simp [annotate_adata_file, hauth] at hok
  · rcases hidx : get_index_for_model reg model_name with _ | idx
    · constructor
      · intro hemp
        simp [annotate_adata_file, hauth, hidx]
      · intro resp hne hok
        simp [annotate_adata_file, hauth, hidx] at hok
    · constructor
      · intro hemp
        have he : (env.embed file model_name).2.isEmpty = true := by
          rw [List.isEmpty_iff]
          exact hemp
        simp [annotate_adata_file, hauth, hidx, he]
      · intro resp hne hok
        have he : (env.embed file model_name).2.isEmpty = false := by
          rw [Bool.eq_false_iff, ne_eq, List.isEmpty_iff]
          exact hne
        rcases hval : validate_knn_response (env.embed file model_name).2
            (env.vector_search idx (env.embed file model_name).2) with ev | uv
        · simp [annotate_adata_file, hauth, hidx, he, hval] at hok
        · have hst : (annotate_adata_file env reg settings st user file model_name
              include_dev_metadata).2.activities =
              st.activities ++
                [{ user_id := user.id,
                   cell_count := (env.embed file model_name).1.length,
                   model_name := model_name, method := some "annotate" }] := by
            simp [annotate_adata_file, hauth, hidx, he, hval, log_user_activity]
          refine ⟨hst, ?_, ?_⟩
          · rw [hst]
            exact total_requests_processed_append user st.activities _ rfl
          · intro c hc
            rw [hst, total_cells_processed_append user st.activities _ rfl, hc]
            rfl

/-- C3 witness: on an empty batch the state is unchanged; on the one-query
batch of ENV0 for the admin user that already has one activity row of cell
count 2, exactly one annotate record of cell count 1 is appended and the
derived cells total rises from 2 to 3. -/
theorem c3_annotate_usage_recording_witness :
    (annotate_adata_file ENV_EMPTY REGISTRY0 SETTINGS0 STATE1 USER_ADMIN "f"
      "model_name" false).2 = STATE1
    ∧ (annotate_adata_file ENV0 REGISTRY0 SETTINGS0 STATE1 USER_ADMIN "f"
        "model_name" false).2.activities =
      STATE1.activities ++
        [{ user_id := 1, cell_count := 1, model_name := "model_name",
           method := some "annotate" }]
    ∧ total_cells_processed USER_ADMIN STATE1.activities = some 2
    ∧ total_cells_processed USER_ADMIN
        (annotate_adata_file ENV0 REGISTRY0 SETTINGS0 STATE1 USER_ADMIN "f"
          "model_name" false).2.activities = some 3 := by
  have hempty := (c3_annotate_usage_recording_amended ENV_EMPTY REGISTRY0 SETTINGS0 STATE1
    USER_ADMIN "f" "model_name" false).1 rfl
  have hfull := (c3_annotate_usage_recording_amended ENV0 REGISTRY0 SETTINGS0 STATE1
    USER_ADMIN "f" "model_name" false).2
    [QueryCell.mk "q0" [MatchInfo.mk "erythrocyte" 10 0 0 0 0 0]] (by decide) rfl
  refine ⟨hempty, hfull.1.trans (by decide), rfl, ?_⟩
  exact (hfull.2.2 2 rfl).trans (by decide)

/-- C3 counterexample: for a user with no prior activity rows, a successful
one-query annotate run appends the record but the derived cells counter
does not increase by one in the claim's sense, because it is SQL NULL
(none) before the request; there is no value b with the total equal to b
before and b plus one after. -/
theorem c3_counterexample_fresh_user_cells_total :
    total_cells_processed USER_FRESH STATE0.activities = none
    ∧ (annotate_adata_file ENV0 REGISTRY0 SETTINGS0 STATE0 USER_FRESH "f"
        "model_name" false).1 =
      .ok [QueryCell.mk "q0" [MatchInfo.mk "erythrocyte" 10 0 0 0 0 0]]
    ∧ total_cells_processed USER_FRESH
        (annotate_adata_file ENV0 REGISTRY0 SETTINGS0 STATE0 USER_FRESH "f"
          "model_name" false).2.activities = some 1
    ∧ ¬ ∃ b, total_cells_processed USER_FRESH STATE0.activities = some b ∧
        total_cells_processed USER_FRESH
          (annotate_adata_file ENV0 REGISTRY0 SETTINGS0 STATE0 USER_FRESH "f"
            "model_name" false).2.activities = some (b + 1) := by
  refine ⟨rfl, rfl, rfl, ?_⟩
  rintro ⟨b, hb, -⟩
  rw [show total_cells_processed USER_FRESH STATE0.activities = none from rfl] at hb
  exact Option.noConfusion hb

/-- C7. The search workflow leaves the service state untouched (no
persistence, no usage recording, even on a non-empty batch), fails with an
error exactly when annotate fails with that error (the shared authorize,
resolve-index, embed, search-and-validate steps), and on success returns,
in input order, one entry per query cell pairing the query id with its raw
neighbor list of index/distance pairs. -/
theorem c7_search_same_steps_no_side_effects (env : Env) (reg : Registry)
    (settings : Settings) (st : ServiceState) (user : User) (file : String)
    (model_name : String) (include_dev_metadata : Bool) :
    (search_adata_file env reg st user file model_name).2 = st
    ∧ (∀ e, (search_adata_file env reg st user file model_name).1 = .error e ↔
        (annotate_adata_file env reg settings st user file model_name
          include_dev_metadata).1 = .error e)
    ∧ (∀ r, (search_adata_file env reg st user file model_name).1 = .ok r →
        ((env.embed file model_name).2 = [] ∧ r = []) ∨
        (∃ index, get_index_for_model reg model_name = some index ∧
          r = ((env.embed file model_name).1.zip
              (env.vector_search index (env.embed file model_name).2).«matches»).map
            (fun p => SearchQueryCellResult.mk p.1
              (p.2.neighbors.map fun n =>
                SearchNeighbor.mk n.cas_cell_index n.distance)))) := by
  rcases hauth : authorize_model_for_user reg.models user model_name with e0 | m0
  · refine ⟨?_, ?_, ?_⟩
    · simp [search_adata_file, hauth]
    · intro e
      simp [search_adata_file, annotate_adata_file, hauth]
    · intro r hr
      simp [search_adata_file, hauth] at hr
  · rcases hidx : get_index_for_model reg model_name with _ | idx
    · refine ⟨?_, ?_, ?_⟩
      · simp [search_adata_file, hauth, hidx]
      · intro e
        simp [search_adata_file, annotate_adata_file, hauth, hidx]
      · intro r hr
        simp [search_adata_file, hauth, hidx] at hr
    · by_cases hemp : (env.embed file model_name).2.isEmpty
      · refine ⟨?_, ?_, ?_⟩
        · simp [search_adata_file, hauth, hidx, hemp]
        · intro e
          simp [search_adata_file, annotate_adata_file, hauth, hidx, hemp]
        · intro r hr
          simp [search_adata_file, hauth, hidx, hemp] at hr
          exact Or.inl ⟨List.isEmpty_iff.mp hemp, hr⟩
      · rw [Bool.not_eq_true] at hemp
        rcases hval : validate_knn_response (env.embed file model_name).2
            (env.vector_search idx (env.embed file model_name).2) with ev | uv
        · refine ⟨?_, ?_, ?_⟩
          · simp [search_adata_file, hauth, hidx, hemp, hval]
          · intro e
            simp [search_adata_file, annotate_adata_file, hauth, hidx, hemp, hval]
          · intro r hr
            simp [search_adata_file, hauth, hidx, hemp, hval] at hr
        · refine ⟨?_, ?_, ?_⟩
          · simp [search_adata_file, hauth, hidx, hemp, hval]
          · intro e
            simp [search_adata_file, annotate_adata_file, hauth, hidx, hemp, hval]
          · intro r hr
            simp [search_adata_file, hauth, hidx, hemp, hval] at hr
            exact Or.inr ⟨idx, rfl, hr.symm⟩

/-- C7 witness: on the one-query environment the search state is unchanged
and the successful result pairs q0 with its single raw neighbor. -/
theorem c7_search_witness :
    (search_adata_file ENV0 REGISTRY0 STATE0 USER_ADMIN "f" "model_name").2 = STATE0
    ∧ (((ENV0.embed "f" "model_name").2 = [] ∧
        ([SearchQueryCellResult.mk "q0" [SearchNeighbor.mk 0 0]] :
          List SearchQueryCellResult) = []) ∨
      (∃ index, get_index_for_model REGISTRY0 "model_name" = some index ∧
        ([SearchQueryCellResult.mk "q0" [SearchNeighbor.mk 0 0]] :
            List SearchQueryCellResult) =
          ((ENV0.embed "f" "model_name").1.zip
              (ENV0.vector_search index (ENV0.embed "f" "model_name").2).«matches»).map
            (fun p => SearchQueryCellResult.mk p.1
              (p.2.neighbors.map fun n =>
                SearchNeighbor.mk n.cas_cell_index n.distance)))) := by
  have h := c7_search_same_steps_no_side_effects ENV0 REGISTRY0 SETTINGS0 STATE0
    USER_ADMIN "f" "model_name" false
  exact ⟨h.1, h.2.2 [SearchQueryCellResult.mk "q0" [SearchNeighbor.mk 0 0]] rfl⟩

end Casp
